import Mathlib

/-!
Shallow embedding of the darwinAgent repository's own logic:
the user-attribute extractor and the request handlers of
`examples/fastapi_langgraph_memory.py`, and the Gradio chat handler of
`app/ui/pages/chat_page.py`.  Conversation state stored by the imported
LangGraph `MemorySaver` checkpoint store is modelled as a map from
session id (the `thread_id`) to the per-session state; per the libraries'
documented behaviour, each graph invocation appends the packaged human
message and the generated AI message to that session's message list.
-/

namespace DarwinAgent

/-- Conversation messages: the repository only distinguishes
`HumanMessage` (role `user`) from AI replies (role `assistant`). -/
inductive Msg where
  | human (text : String)
  | ai (text : String)
deriving DecidableEq, Repr

/-- Characters Python `str.split()` / `str.strip()` treat as whitespace
(the ASCII ones, which are the only ones the repository's inputs use). -/
def isPySpace (c : Char) : Bool :=
  c == ' ' || c == '\t' || c == '\n' || c == '\r' ||
    c == Char.ofNat 11 || c == Char.ofNat 12

/-- Python `str.lower()`.  Restricted to the ASCII case mapping: CJK
characters (all the markers and vocabulary terms) are unchanged by
`lower()`, and ASCII letters map A-Z to a-z, exactly as here. -/
def pyLower (s : String) : String :=
  String.mk (s.toList.map Char.toLower)

/-- Python's substring test `needle in hay` on strings, over char lists. -/
def containsSub : List Char → List Char → Bool
  | n, [] => n.isEmpty
  | n, c :: t => n.isPrefixOf (c :: t) || containsSub n t

/-- Worker for `pyWords`: accumulates the current word (reversed). -/
def pyWordsGo (cur : List Char) : List Char → List (List Char)
  | [] => if cur.isEmpty then [] else [cur.reverse]
  | c :: rest =>
    if isPySpace c then
      if cur.isEmpty then pyWordsGo [] rest
      else cur.reverse :: pyWordsGo [] rest
    else pyWordsGo (c :: cur) rest

/-- Python `str.split()` with no argument: split on runs of whitespace,
discarding empty tokens. -/
def pyWords (s : List Char) : List (List Char) :=
  pyWordsGo [] s

/-- Whether a word is one of the self-introduction markers
`["我叫", "我是"]`. -/
def isIntroMarker (w : List Char) : Bool :=
  w == ("我叫".toList) || w == ("我是".toList)

/-- Python `word.replace("，", "").replace(",", "")`: removes every
fullwidth and ASCII comma. -/
def pyReplaceCommas (w : List Char) : List Char :=
  w.filter (fun c => !(c == '，' || c == ','))

/-- The name-extraction loop of `extract_user_info_async`
(`examples/fastapi_langgraph_memory.py` lines 87-93): scan the word list
for the first marker word that has a successor word; strip commas from
the successor and accept it as the name only if it is non-empty and
shorter than 10 characters; `break` either way. -/
def nameScan : List (List Char) → Option String
  | w :: next :: rest =>
    if isIntroMarker w then
      let name := pyReplaceCommas next
      if !name.isEmpty && name.length < 10 then some (String.mk name) else none
    else nameScan (next :: rest)
  | _ => none

/-- The full name branch: guarded by the substring test
`"我叫" in content or "我是" in content` on the lowered text. -/
def extractNameAsync (cl : List Char) : Option String :=
  if containsSub ("我叫".toList) cl || containsSub ("我是".toList) cl then
    nameScan (pyWords cl)
  else none

/-- The fixed job vocabulary of `extract_user_info_async`, in source order. -/
def jobs : List String :=
  ["程序员", "工程师", "老师", "医生", "学生", "设计师", "销售", "经理"]

/-- The fixed city vocabulary of `extract_user_info_async`, in source order. -/
def cities : List String :=
  ["北京", "上海", "广州", "深圳", "杭州", "南京", "成都", "武汉"]

/-- Conditional dict assignment: a `some` from the current message
overwrites the accumulated value, a `none` leaves it. -/
def overwrite (n o : Option String) : Option String :=
  match n with
  | some v => some v
  | none => o

/-- The user-info mapping.  The extractor only ever writes the four keys
`name`, `job`, `interests`, `location`; an absent key is `none`. -/
structure UserInfo where
  name : Option String := none
  job : Option String := none
  interests : Option String := none
  location : Option String := none
deriving DecidableEq, Repr

/-- One iteration of the message loop of `extract_user_info_async`:
non-human messages are skipped; for a human message the text is lowered
and the four keys are each conditionally assigned (the four branches are
independent: none reads the dict, and they write distinct keys). -/
def stepMsgAsync (info : UserInfo) (msg : Msg) : UserInfo :=
  match msg with
  | .ai _ => info
  | .human text =>
    let content := pyLower text
    let cl := content.toList
    { name := overwrite (extractNameAsync cl) info.name
      job := overwrite (jobs.find? fun j => containsSub j.toList cl) info.job
      interests :=
        overwrite (if containsSub ("喜欢".toList) cl then some content else none)
          info.interests
      location :=
        overwrite (cities.find? fun c => containsSub c.toList cl) info.location }

/-- `extract_user_info_async` of `examples/fastapi_langgraph_memory.py`:
folds the per-message step over all messages in order, starting from the
empty mapping. -/
def extract_user_info_async (messages : List Msg) : UserInfo :=
  messages.foldl stepMsgAsync {}

/-- Per-session checkpoint state: the message transcript accumulated by
`add_messages` plus the `user_info` channel. -/
structure SessionState where
  messages : List Msg := []
  user_info : UserInfo := {}
deriving DecidableEq, Repr

/-- The `MemorySaver` checkpoint store, keyed by `thread_id`; an unknown
session id resolves to the empty state (as `aget_state` does). -/
abbrev Store := String → SessionState

/-- Python `existing_user_info.update(user_info)`: keys present in the
new mapping overwrite, keys absent from it persist. -/
def mergeInfo (old new : UserInfo) : UserInfo :=
  { name := overwrite new.name old.name
    job := overwrite new.job old.job
    interests := overwrite new.interests old.interests
    location := overwrite new.location old.location }

/-- The `ChatResponse` model of the API, without the wall-clock
`processing_time` field (real time is outside the embedding). -/
structure ChatResponseM where
  response : String
  session_id : String
  user_info : UserInfo
  message_count : Nat
deriving DecidableEq, Repr

/-- One call of the `POST /chat` handler body on a resolved session id:
the request message is packaged as a single `HumanMessage` and the graph
is invoked, which appends it, runs `api_chatbot_node` (extract over all
messages, merge into `user_info`, produce one AI message `reply`), and
persists the new state under the session id.  `message_count` re-queries
the state after the call.  The LLM output is the parameter `reply`. -/
def chatStep (reply : String) (store : Store) (sid : String) (message : String) :
    ChatResponseM × Store :=
  let st := store sid
  let msgsIn := st.messages ++ [Msg.human message]
  let extracted := extract_user_info_async msgsIn
  let newInfo := mergeInfo st.user_info extracted
  let msgsOut := msgsIn ++ [Msg.ai reply]
  let st' : SessionState := { messages := msgsOut, user_info := newInfo }
  let store' : Store := fun k => if k = sid then st' else store k
  ({ response := reply
     session_id := sid
     user_info := newInfo
     message_count := msgsOut.length }, store')

/-- `session_id = request.session_id or str(uuid.uuid4())`: Python `or`
falls through on `None` and on the empty string.  The generated
`uuid.uuid4()` string is the parameter `fresh`. -/
def resolveSessionId (req : Option String) (fresh : String) : String :=
  match req with
  | none => fresh
  | some s => if s = "" then fresh else s

/-- The `POST /chat` handler: resolve the session id, then invoke the
graph on it. -/
def chatHandler (reply fresh : String) (store : Store) (message : String)
    (reqSessionId : Option String) : ChatResponseM × Store :=
  chatStep reply store (resolveSessionId reqSessionId fresh) message

/-- Successive calls of the chat handler on one session key: for each
(message, reply) pair, call `chatStep` and record the returned
`message_count`. -/
def chatCounts (sid : String) : Store → List (String × String) → List Nat
  | _, [] => []
  | store, (m, r) :: rest =>
    let out := chatStep r store sid m
    out.1.message_count :: chatCounts sid out.2 rest

/-- The response body of `POST /sessions/{id}/clear`. -/
structure ClearResponse where
  message : String
  old_session_id : String
  new_session_id : String
deriving DecidableEq, Repr

/-- The `POST /sessions/{session_id}/clear` handler: generates a fresh
uuid (the parameter `fresh`), builds the response, and never touches the
checkpoint store. -/
def clear_session (session_id : String) (fresh : String) (store : Store) :
    ClearResponse × Store :=
  ({ message := "会话已清空"
     old_session_id := session_id
     new_session_id := fresh }, store)

/-- The `DELETE /sessions/{session_id}` handler: returns an explanatory
message and never touches the checkpoint store. -/
def delete_session (session_id : String) (store : Store) : String × Store :=
  ("会话 " ++ session_id ++ " 删除请求已接收（注意：内存存储不支持真正删除）", store)

/-- The in-process conversation state dict of the Gradio chat page; the
handler only ever writes the keys `last_input` and `last_agent`. -/
structure MockState where
  last_input : Option String := none
  last_agent : Option String := none
deriving DecidableEq, Repr

/-- Python truthiness of `user_input.strip()` being falsy: every
character is whitespace (in particular the empty string). -/
def pyStripIsEmpty (s : String) : Bool :=
  s.toList.all isPySpace

/-- `mock_chat_response` of `app/ui/pages/chat_page.py`: blank input is
returned unchanged with the input box cleared; otherwise the turn
`(user_input, reply)` is appended to the history, the input box is
cleared and the state keys are updated.  `temperature` is carried as its
display string, as it is only interpolated into the reply text. -/
def mock_chat_response (user_input : String) (history : List (String × Option String))
    (state : MockState) (agent_type : String) (temperature : String) :
    List (String × Option String) × String × MockState :=
  if pyStripIsEmpty user_input then (history, "", state)
  else
    let reply := "您选择了" ++ agent_type ++ "，温度设置为" ++ temperature ++
      "。\n\n您的输入是：" ++ user_input ++
      "\n\n这是一个模拟回复，实际项目中应替换为真实的代理响应。"
    (history ++ [(user_input, some reply)], "",
      { state with last_input := some user_input, last_agent := some agent_type })

/-! ## Helper lemmas -/

lemma chatStep_message_count (reply : String) (store : Store) (sid message : String) :
    (chatStep reply store sid message).1.message_count =
      (store sid).messages.length + 2 := by
  simp [chatStep]

lemma chatStep_store_messages (reply : String) (store : Store) (sid message : String) :
    ((chatStep reply store sid message).2 sid).messages =
      (store sid).messages ++ [Msg.human message, Msg.ai reply] := by
  simp [chatStep]

lemma nameScan_append (pre l : List (List Char))
    (hpre : ∀ w ∈ pre, isIntroMarker w = false) (hl : l ≠ []) :
    nameScan (pre ++ l) = nameScan l := by
  induction pre with
  | nil => rfl
  | cons w pre ih =>
    have h1 : isIntroMarker w = false := hpre w (List.mem_cons_self w pre)
    have h2 : pre ++ l ≠ [] := by
      simp only [ne_eq, List.append_eq_nil]
      exact fun h => hl h.2
    obtain ⟨x, xs, hx⟩ := List.exists_cons_of_ne_nil h2
    rw [List.cons_append, hx]
    simp only [nameScan, h1, Bool.false_eq_true, if_false]
    rw [← hx]
    exact ih (fun w hw => hpre w (List.mem_cons_of_mem _ hw))

lemma chatCounts_cons (sid : String) (store : Store) (m r : String)
    (ps : List (String × String)) :
    chatCounts sid store ((m, r) :: ps) =
      ((store sid).messages.length + 2) ::
        chatCounts sid (chatStep r store sid m).2 ps := by
  simp [chatCounts, chatStep_message_count]

lemma chatCounts_chain_le (sid : String) (ps : List (String × String)) :
    ∀ store : Store, List.Chain' (· ≤ ·) (chatCounts sid store ps) := by
  induction ps with
  | nil => intro store; simp [chatCounts]
  | cons p ps ih =>
    intro store
    obtain ⟨m, r⟩ := p
    rw [chatCounts_cons, List.chain'_cons']
    refine ⟨?_, ih _⟩
    intro b hb
    cases ps with
    | nil => simp [chatCounts] at hb
    | cons q qs =>
      obtain ⟨m2, r2⟩ := q
      rw [chatCounts_cons] at hb
      simp only [List.head?_cons, Option.mem_def, Option.some.injEq] at hb
      subst hb
      rw [chatStep_store_messages]
      simp

/-! ## Claim theorems -/

/-- C1 (counterexample): the spec's own example fails on the code.  The
input "我叫张三" contains the marker "我叫", but the extractor splits on
whitespace and only accepts a marker that is its own token, so the whole
input is a single word, no marker token is found, and the returned
mapping is empty — not the claimed mapping with name "张三". -/
theorem name_marker_glued_no_extraction_cex :
    extract_user_info_async [Msg.human ("我叫张三")] = ({} : UserInfo) := by
  decide

/-- C1 (amended): if the lowered message text contains a
self-introduction marker, and in its whitespace word list the first
marker word that occurs has a following word, then the mapping's name
equals that following word with all commas removed, provided that the
stripped word is non-empty and shorter than 10 characters. -/
theorem name_extracted_from_tokenized_marker (t : String) (pre : List (List Char))
    (m next : List Char) (rest : List (List Char))
    (hgate : containsSub ("我叫".toList) (pyLower t).toList = true ∨
      containsSub ("我是".toList) (pyLower t).toList = true)
    (hwords : pyWords (pyLower t).toList = pre ++ m :: next :: rest)
    (hpre : ∀ w ∈ pre, isIntroMarker w = false)
    (hm : isIntroMarker m = true)
    (hne : pyReplaceCommas next ≠ [])
    (hlen : (pyReplaceCommas next).length < 10) :
    (extract_user_info_async [Msg.human t]).name =
      some (String.mk (pyReplaceCommas next)) := by
  have hemp : (pyReplaceCommas next).isEmpty = false := by
    cases hx : pyReplaceCommas next with
    | nil => exact absurd hx hne
    | cons a l => rfl
  have hscan : nameScan (pyWords (pyLower t).toList) =
      some (String.mk (pyReplaceCommas next)) := by
    rw [hwords, nameScan_append pre (m :: next :: rest) hpre (by simp)]
    simp [nameScan, hm, hemp, hlen]
  simp only [extract_user_info_async, List.foldl_cons, List.foldl_nil, stepMsgAsync]
  rcases hgate with h | h <;> simp at h hscan <;>
    simp [extractNameAsync, overwrite, h, hscan]

/-- C1 (witness): on the input "我叫 张三，", where the marker is its own
token, the extractor returns the following token with commas stripped. -/
theorem name_extracted_from_tokenized_marker_witness :
    (containsSub ("我叫".toList) (pyLower ("我叫 张三，")).toList = true ∨
      containsSub ("我是".toList) (pyLower ("我叫 张三，")).toList = true) ∧
    pyWords (pyLower ("我叫 张三，")).toList =
      [] ++ ("我叫".toList) :: ("张三，".toList) :: [] ∧
    (∀ w ∈ ([] : List (List Char)), isIntroMarker w = false) ∧
    isIntroMarker ("我叫".toList) = true ∧
    pyReplaceCommas ("张三，".toList) ≠ [] ∧
    (pyReplaceCommas ("张三，".toList)).length < 10 ∧
    (extract_user_info_async [Msg.human ("我叫 张三，")]).name =
      some (String.mk (pyReplaceCommas ("张三，".toList))) :=
  ⟨Or.inl (by decide), by decide, by simp, by decide, by decide, by decide,
    name_extracted_from_tokenized_marker ("我叫 张三，") [] ("我叫".toList)
      ("张三，".toList) [] (Or.inl (by decide)) (by decide) (by simp) (by decide)
      (by decide) (by decide)⟩

/-- C2 (counterexample): an empty message sent to the chat endpoint does
change the session state: starting from an empty session, the call stores
the empty human message plus the AI reply, and the returned message
count is 2, not 0. -/
theorem chat_endpoint_empty_message_changes_state_cex :
    (chatStep ("好的") (fun _ => {}) ("s1") ("")).1.message_count = 2 ∧
    ((chatStep ("好的") (fun _ => {}) ("s1") ("")).2 ("s1")).messages =
      [Msg.human (""), Msg.ai ("好的")] ∧
    ((fun _ => ({} : SessionState)) ("s1")).messages = ([] : List Msg) ∧
    [Msg.human (""), Msg.ai ("好的")] ≠ ([] : List Msg) := by
  refine ⟨by decide, by decide, rfl, by decide⟩

/-- C2 (amended): the UI chat handler ignores a blank message (transcript,
cleared input and state are returned unchanged), but the chat endpoint
has no empty-message guard: an empty message is appended to the session
transcript together with the model reply, and the returned message count
grows by 2. -/
theorem empty_message_ui_ignored_endpoint_appends
    (history : List (String × Option String)) (state : MockState)
    (agent temp reply : String) (store : Store) (sid : String) :
    mock_chat_response ("") history state agent temp = (history, "", state) ∧
    ((chatStep reply store sid ("")).2 sid).messages =
      (store sid).messages ++ [Msg.human (""), Msg.ai reply] ∧
    (chatStep reply store sid ("")).1.message_count =
      (store sid).messages.length + 2 := by
  refine ⟨?_, chatStep_store_messages reply store sid (""),
    chatStep_message_count reply store sid ("")⟩
  have h : pyStripIsEmpty ("") = true := rfl
  simp [mock_chat_response, h]

/-- C3: `POST /sessions/{id}/clear` returns the freshly generated id as
`new_session_id` (distinct from the supplied id whenever the generated
uuid differs from it), and does not touch the checkpoint store, so the
original id still resolves to the original state afterwards. -/
theorem clear_session_fresh_id_preserves_state (sid fresh : String) (store : Store)
    (h : fresh ≠ sid) :
    (clear_session sid fresh store).1.new_session_id ≠ sid ∧
    (clear_session sid fresh store).2 = store ∧
    (clear_session sid fresh store).2 sid = store sid :=
  ⟨h, rfl, rfl⟩

/-- C3 (witness): clearing session "s1" with generated id "new-id-1". -/
theorem clear_session_fresh_id_preserves_state_witness :
    ("new-id-1" : String) ≠ "s1" ∧
    ((clear_session ("s1") ("new-id-1") (fun _ => {})).1.new_session_id ≠ "s1" ∧
      (clear_session ("s1") ("new-id-1") (fun _ => {})).2 = (fun _ => {}) ∧
      (clear_session ("s1") ("new-id-1") (fun _ => {})).2 ("s1") =
        (fun _ => ({} : SessionState)) ("s1")) :=
  ⟨by decide,
    clear_session_fresh_id_preserves_state ("s1") ("new-id-1") (fun _ => {})
      (by decide)⟩

/-- C4: across successive calls of the chat endpoint on one session key
whose message inputs are all non-empty, the returned message counts are
non-decreasing (each call appends two messages, so each count exceeds
the previous one by exactly 2). -/
theorem chat_message_count_monotone (sid : String) (ps : List (String × String))
    (store : Store) (_h : ps.all (fun p => !(p.1 == "")) = true) :
    List.Chain' (· ≤ ·) (chatCounts sid store ps) :=
  chatCounts_chain_le sid ps store

/-- C4 (witness): two successive non-empty calls on session "s1". -/
theorem chat_message_count_monotone_witness :
    ([("你好", "嗨"), ("我叫 张三", "好的")].all (fun p => !(p.1 == "")) = true) ∧
    List.Chain' (· ≤ ·)
      (chatCounts ("s1") (fun _ => {}) [("你好", "嗨"), ("我叫 张三", "好的")]) :=
  ⟨by decide,
    chat_message_count_monotone ("s1") [("你好", "嗨"), ("我叫 张三", "好的")]
      (fun _ => {}) (by decide)⟩

/-- C5: the extractor rebuilds the mapping by folding over all messages
in order (extracting over an appended message list continues the fold
from the earlier result), and a later message matching a key silently
overwrites any earlier value for that key: whatever the earlier messages
`ms` contributed, a final message containing the interest marker leaves
its own lowered text as the `interests` value. -/
theorem extract_rescan_later_overwrites (ms ms₁ ms₂ : List Msg) (t : String)
    (h : containsSub ("喜欢".toList) (pyLower t).toList = true) :
    extract_user_info_async (ms₁ ++ ms₂) =
      List.foldl stepMsgAsync (extract_user_info_async ms₁) ms₂ ∧
    (extract_user_info_async (ms ++ [Msg.human t])).interests = some (pyLower t) := by
  constructor
  · simp [extract_user_info_async, List.foldl_append]
  · rw [extract_user_info_async, List.foldl_append]
    simp at h
    simp [stepMsgAsync, overwrite, h]

/-- C5 (witness): "我喜欢狗" after "我喜欢猫" overwrites the interests value. -/
theorem extract_rescan_later_overwrites_witness :
    containsSub ("喜欢".toList) (pyLower ("我喜欢狗")).toList = true ∧
    (extract_user_info_async ([Msg.human ("我喜欢猫")] ++ [Msg.human ("我喜欢狗")]) =
      List.foldl stepMsgAsync (extract_user_info_async [Msg.human ("我喜欢猫")])
        [Msg.human ("我喜欢狗")] ∧
    (extract_user_info_async
        ([Msg.human ("我喜欢猫")] ++ [Msg.human ("我喜欢狗")])).interests =
      some (pyLower ("我喜欢狗"))) :=
  ⟨by decide,
    extract_rescan_later_overwrites [Msg.human ("我喜欢猫")]
      [Msg.human ("我喜欢猫")] [Msg.human ("我喜欢狗")] ("我喜欢狗") (by decide)⟩

/-- C6 (counterexample): the interests value is the lower-cased content,
not the original message text: "我喜欢Python" is stored as
"我喜欢python". -/
theorem interests_lowercased_cex :
    (extract_user_info_async [Msg.human ("我喜欢Python")]).interests =
      some ("我喜欢python") ∧
    ("我喜欢python" : String) ≠ "我喜欢Python" := by
  refine ⟨by decide, by decide⟩

/-- C6 (amended): for every message whose lowered text contains the
interest marker "喜欢", the mapping's interests value equals the
lower-cased message text. -/
theorem interests_stores_lowered_text (t : String)
    (h : containsSub ("喜欢".toList) (pyLower t).toList = true) :
    (extract_user_info_async [Msg.human t]).interests = some (pyLower t) := by
  simp at h
  simp [extract_user_info_async, stepMsgAsync, overwrite, h]

/-- C6 (witness): the amended statement at the counterexample input. -/
theorem interests_stores_lowered_text_witness :
    containsSub ("喜欢".toList) (pyLower ("我喜欢Python")).toList = true ∧
    (extract_user_info_async [Msg.human ("我喜欢Python")]).interests =
      some (pyLower ("我喜欢Python")) :=
  ⟨by decide, interests_stores_lowered_text ("我喜欢Python") (by decide)⟩

/-- C7: for a message whose lowered text contains a term of the fixed
job vocabulary, the mapping's job value equals the first vocabulary term
(in the list's order) contained in the text. -/
theorem job_first_vocab_match (t j : String)
    (h : jobs.find? (fun v => containsSub v.toList (pyLower t).toList) = some j) :
    (extract_user_info_async [Msg.human t]).job = some j := by
  simp at h
  simp [extract_user_info_async, stepMsgAsync, overwrite, h]

/-- C7 (witness): "我是程序员也是工程师" contains two vocabulary terms and
the first one in vocabulary order, "程序员", is taken. -/
theorem job_first_vocab_match_witness :
    jobs.find?
      (fun v => containsSub v.toList (pyLower ("我是程序员也是工程师")).toList) =
      some ("程序员") ∧
    (extract_user_info_async [Msg.human ("我是程序员也是工程师")]).job =
      some ("程序员") :=
  ⟨by decide, job_first_vocab_match ("我是程序员也是工程师") ("程序员") (by decide)⟩

/-- C8: a message whose lowered text contains no self-introduction
marker, no job vocabulary term, no interest marker and no city
vocabulary term yields the empty mapping; the extractor is a total
function (the source raises nothing), so no input produces an error. -/
theorem no_marker_empty_info (t : String)
    (h1 : containsSub ("我叫".toList) (pyLower t).toList = false)
    (h2 : containsSub ("我是".toList) (pyLower t).toList = false)
    (h3 : containsSub ("喜欢".toList) (pyLower t).toList = false)
    (h4 : jobs.all (fun j => !containsSub j.toList (pyLower t).toList) = true)
    (h5 : cities.all (fun c => !containsSub c.toList (pyLower t).toList) = true) :
    extract_user_info_async [Msg.human t] = ({} : UserInfo) := by
  have hj : jobs.find? (fun j => containsSub j.data (pyLower t).data) = none := by
    rw [List.find?_eq_none]
    intro j hjm
    have := List.all_eq_true.mp h4 j hjm
    simp only [Bool.not_eq_true'] at this
    simpa using this
  have hc : cities.find? (fun c => containsSub c.data (pyLower t).data) = none := by
    rw [List.find?_eq_none]
    intro c hcm
    have := List.all_eq_true.mp h5 c hcm
    simp only [Bool.not_eq_true'] at this
    simpa using this
  simp at h1 h2 h3
  simp [extract_user_info_async, stepMsgAsync, extractNameAsync, overwrite,
    h1, h2, h3, hj, hc]

/-- C8 (witness): "今天天气不错" matches nothing and yields the empty
mapping. -/
theorem no_marker_empty_info_witness :
    containsSub ("我叫".toList) (pyLower ("今天天气不错")).toList = false ∧
    containsSub ("我是".toList) (pyLower ("今天天气不错")).toList = false ∧
    containsSub ("喜欢".toList) (pyLower ("今天天气不错")).toList = false ∧
    jobs.all (fun j => !containsSub j.toList (pyLower ("今天天气不错")).toList) = true ∧
    cities.all (fun c => !containsSub c.toList (pyLower ("今天天气不错")).toList) = true ∧
    extract_user_info_async [Msg.human ("今天天气不错")] = ({} : UserInfo) :=
  ⟨by decide, by decide, by decide, by decide, by decide,
    no_marker_empty_info ("今天天气不错") (by decide) (by decide) (by decide)
      (by decide) (by decide)⟩

/-- C9: `DELETE /sessions/{session_id}` answers every request with the
explanatory message naming the session and leaves the in-memory
checkpoint store untouched. -/
theorem delete_session_noop_with_message (sid : String) (store : Store) :
    (delete_session sid store).2 = store ∧
    (delete_session sid store).1 =
      "会话 " ++ sid ++ " 删除请求已接收（注意：内存存储不支持真正删除）" :=
  ⟨rfl, rfl⟩

/-- C10: a chat request whose session_id is the empty string gets a
freshly generated session id (Python `or` treats "" as falsy), and for
any request the session_id returned in the response is never the empty
string, as long as the generated uuid string is non-empty. -/
theorem empty_session_id_regenerated (reply fresh message : String) (store : Store)
    (req : Option String) (h : fresh ≠ "") :
    (chatHandler reply fresh store message (some "")).1.session_id = fresh ∧
    (chatHandler reply fresh store message req).1.session_id ≠ "" := by
  constructor
  · simp [chatHandler, chatStep, resolveSessionId]
  · cases req with
    | none => simpa [chatHandler, chatStep, resolveSessionId] using h
    | some s =>
      by_cases hs : s = ""
      · subst hs
        simpa [chatHandler, chatStep, resolveSessionId] using h
      · simp [chatHandler, chatStep, resolveSessionId, hs]

/-- C10 (witness): a request carrying session_id "" resolves to the
generated id "u1". -/
theorem empty_session_id_regenerated_witness :
    ("u1" : String) ≠ "" ∧
    ((chatHandler ("ok") ("u1") (fun _ => {}) ("你好") (some "")).1.session_id = "u1" ∧
      (chatHandler ("ok") ("u1") (fun _ => {}) ("你好") (some "")).1.session_id ≠ "") :=
  ⟨by decide,
    empty_session_id_regenerated ("ok") ("u1") ("你好") (fun _ => {}) (some "")
      (by decide)⟩

end DarwinAgent
